import Mathlib

/-
  Verification of the Q&A persistence layer and board controller of the
  polyvagal-theory-part2 repository.

  The definitions below are a shallow embedding of:
    - the local-storage (mock) backend of src/firebase.ts (lines 90-152):
      getMockData / saveMockData / subscribeToQA / addQuestion /
      replyToQuestion / deleteQuestion, with the listener set made explicit
      and callback invocations reified as a list of (listener, data) deliveries;
    - the Firebase-mode _addQuestion of src/firebase.ts (lines 65-78),
      parametrised by the outcome of the awaited addDoc call;
    - the error branch of the Firebase-mode _subscribeToQA (lines 55-62);
    - the board controller logic of src/components/QABoard.tsx (the variant
      with connection-error state): handlePwdSubmit, the delete-button guard,
      handleSubmit, and the subscription callback.
-/

/-- QAItem from src/types.ts: one reader question with optional admin reply.
The TS `reply?: string` is written as `''` by every creator, so it is modelled
as a plain `String`. `timestamp` is seconds since epoch. -/
structure QAItem where
  id : String
  nickname : String
  question : String
  reply : String
  timestamp : Nat
  isReplied : Bool
deriving Repr, DecidableEq

/-- State of the local-storage backend module of src/firebase.ts: the record
list stored under `qa_board_demo_data` (kept structured; JSON round-tripping
is not modelled) and the module-level `listeners` set, with callbacks
identified by tokens. -/
structure MockState where
  stored : List QAItem
  listeners : List Nat
deriving Repr, DecidableEq

/-- getMockData (src/firebase.ts lines 97-102): read the stored list. -/
def getMockData (s : MockState) : List QAItem :=
  s.stored

/-- saveMockData (src/firebase.ts lines 104-107): overwrite the stored list
and invoke every registered listener with the new data. The callback
invocations are returned as a list of (listener token, delivered list). -/
def saveMockData (data : List QAItem) (s : MockState) :
    MockState × List (Nat × List QAItem) :=
  ({ stored := data, listeners := s.listeners },
   s.listeners.map fun t => (t, data))

/-- Local-mode _subscribeToQA (src/firebase.ts lines 118-127): synchronously
invoke the callback with the current stored list (returned as the first
component) and add a wrapper for the callback to the listener set. -/
def subscribeToQA (tok : Nat) (s : MockState) : List QAItem × MockState :=
  (getMockData s, { s with listeners := s.listeners ++ [tok] })

/-- The unsubscribe closure returned by the local-mode _subscribeToQA
(src/firebase.ts lines 122-126): its body is empty, so it leaves the
listener set untouched. -/
def unsubscribeToQA (_tok : Nat) (s : MockState) : MockState :=
  s

/-- Local-mode _addQuestion (src/firebase.ts lines 132-141): the id is
`Date.now().toString()`, the timestamp is `Math.floor(Date.now() / 1000)`,
and the new record is prepended to the stored list. `nowMs` is the value of
`Date.now()` at the call. Returns (returned id, new state, deliveries). -/
def addQuestion (nowMs : Nat) (nickname question : String) (s : MockState) :
    String × MockState × List (Nat × List QAItem) :=
  let items := getMockData s
  let id := toString nowMs
  let newItem : QAItem :=
    { id := id, nickname := nickname, question := question,
      reply := "", isReplied := false, timestamp := nowMs / 1000 }
  let r := saveMockData (newItem :: items) s
  (id, r.1, r.2)

/-- The record updater inlined in local-mode _replyToQuestion
(src/firebase.ts line 145): `i => i.id === id ? { ...i, reply, isReplied: true } : i`. -/
def replyUpdater (id reply : String) (i : QAItem) : QAItem :=
  if i.id = id then { i with reply := reply, isReplied := true } else i

/-- Local-mode _replyToQuestion (src/firebase.ts lines 143-146): map the
updater over the stored list and save. -/
def replyToQuestion (id reply : String) (s : MockState) :
    MockState × List (Nat × List QAItem) :=
  let items := getMockData s
  saveMockData (items.map (replyUpdater id reply)) s

/-- Local-mode _deleteQuestion (src/firebase.ts lines 148-151): keep exactly
the records whose id differs and save. -/
def deleteQuestion (id : String) (s : MockState) :
    MockState × List (Nat × List QAItem) :=
  let items := getMockData s
  saveMockData (items.filter fun i => i.id != id) s

/-- One mutating operation of the local backend. -/
inductive QAOp
  | add (nowMs : Nat) (nickname question : String)
  | reply (id text : String)
  | del (id : String)
deriving Repr, DecidableEq

/-- Apply one operation, returning the new state and the deliveries it
triggers through saveMockData. -/
def applyOp : QAOp → MockState → MockState × List (Nat × List QAItem)
  | .add nowMs n q, s => ((addQuestion nowMs n q s).2.1, (addQuestion nowMs n q s).2.2)
  | .reply id t, s => replyToQuestion id t s
  | .del id, s => deleteQuestion id s

/-- A list of records is sorted newest-first by creation timestamp. -/
def sortedByTimestampDesc : List QAItem → Bool
  | [] => true
  | [_] => true
  | a :: b :: rest => (b.timestamp ≤ a.timestamp) && sortedByTimestampDesc (b :: rest)

/-- Outcome of the `addDoc` call awaited by the Firebase-mode _addQuestion:
the server acknowledges the write with a document id after some elapsed
time, the write fails with an error, or the acknowledgement never arrives. -/
inductive AddDocOutcome
  | acked (docId : String) (elapsedMs : Nat)
  | failed (err : String)
  | neverSettles
deriving Repr, DecidableEq

/-- How the promise returned by addQuestion settles. -/
inductive PromiseResult
  | resolved (id : String)
  | rejected (err : String)
  | pendingForever
deriving Repr, DecidableEq

/-- The document written by the Firebase-mode _addQuestion. -/
structure FirestoreDoc where
  nickname : String
  question : String
  reply : String
  isReplied : Bool
  timestamp : Nat
  userId : Option String
deriving Repr, DecidableEq

/-- Firebase-mode _addQuestion (src/firebase.ts lines 65-78): await
authPromise (whose rejections are caught), read the uid, compute the
timestamp, await addDoc, return docRef.id. The function contains no
setTimeout, no Promise.race and no other time bound, so its promise settles
exactly when and how the addDoc promise settles, independently of the
elapsed time. -/
def addQuestionFirebase (nickname question : String) (uid : Option String)
    (nowSec : Nat) (outcome : AddDocOutcome) : PromiseResult × Option FirestoreDoc :=
  match outcome with
  | .acked docId _ =>
      (.resolved docId,
       some { nickname := nickname, question := question, reply := "",
              isReplied := false, timestamp := nowSec, userId := uid })
  | .failed e => (.rejected e, none)
  | .neverSettles => (.pendingForever, none)

/-- Error branch of the Firebase-mode _subscribeToQA (src/firebase.ts lines
55-62): on a Firestore error the callback is invoked with an empty list and
an error message (the message text chosen from err.code is not modelled). -/
def firestoreErrorDelivery (msg : String) : List QAItem × Option String :=
  ([], some msg)

/-- ADMIN_PASSWORD of src/components/QABoard.tsx:
`import.meta.env.VITE_ADMIN_PASSWORD || 'admin'`, with JS truthiness: an
unset or empty environment value falls back to "admin". -/
def ADMIN_PASSWORD (env : Option String) : String :=
  match env with
  | some s => if s = "" then "admin" else s
  | none => "admin"

/-- Admin-related controller state of QABoard: the isAdmin flag, the
persisted `qa_is_admin` localStorage flag, the password-input visibility,
the typed password, and whether the rejection alert was shown. -/
structure AdminState where
  isAdmin : Bool
  storedAdminFlag : Bool
  showPwdInput : Bool
  pwdValue : String
  alerted : Bool
deriving Repr, DecidableEq

/-- handlePwdSubmit of QABoard (persisted-admin variant, lines 345-355): on a
matching password set isAdmin, persist the flag, hide the input and clear the
field; otherwise alert and clear the field. -/
def handlePwdSubmit (password : String) (s : AdminState) : AdminState :=
  if s.pwdValue = password then
    { s with isAdmin := true, storedAdminFlag := true,
             showPwdInput := false, pwdValue := "" }
  else
    { s with alerted := true, pwdValue := "" }

/-- The delete-button guard of QABoard (lines 505-521): the button is
rendered for a record exactly when `myQuestionIds.includes(q.id) || isAdmin`. -/
def deleteButtonShown (myQuestionIds : List String) (admin : Bool) (q : QAItem) : Bool :=
  myQuestionIds.contains q.id || admin

/-- Controller state touched by handleSubmit: the nickname and question
fields, the in-memory myQuestionIds list, its `my_qa_ids` localStorage
mirror, and the submit-failure alert. -/
structure SubmitState where
  nickname : String
  newQuestion : String
  myQuestionIds : List String
  myIdsStorage : List String
  alertMsg : Option String
deriving Repr, DecidableEq

/-- handleSubmit of QABoard (lines 362-381): after the emptiness guard, on a
resolved addQuestion the new id is appended to myQuestionIds and persisted
and the question field is cleared; on a rejection an alert is shown and
nothing else changes. The awaited addQuestion outcome is passed explicitly. -/
def handleSubmit (result : Except String String) (s : SubmitState) : SubmitState :=
  if s.nickname.trim = "" ∨ s.newQuestion.trim = "" then s
  else
    match result with
    | .ok newId =>
        { s with myQuestionIds := s.myQuestionIds ++ [newId],
                 myIdsStorage := s.myQuestionIds ++ [newId],
                 newQuestion := "" }
    | .error msg => { s with alertMsg := some ("提交失败: " ++ msg) }

/-- Controller state touched by the subscription callback of QABoard. -/
structure ConnState where
  questions : List QAItem
  connectionError : Option String
deriving Repr, DecidableEq

/-- The subscription callback installed by QABoard (lines 303-316): on an
error delivery keep the question list and record the error; on a data
delivery replace the list and clear the error. -/
def subscriptionHandler (data : List QAItem) (error : Option String)
    (s : ConnState) : ConnState :=
  match error with
  | some e => { s with connectionError := some e }
  | none => { questions := data, connectionError := none }

/-- Every element of a filtered list satisfies the filtering predicate. -/
theorem all_filter_self (p : QAItem → Bool) (l : List QAItem) :
    ((l.filter p).all p) = true := by
  rw [List.all_eq_true]
  intro x hx
  exact (List.mem_filter.mp hx).2

/-- Filtering twice with the same predicate equals filtering once. -/
theorem filter_self_idem (p : QAItem → Bool) (l : List QAItem) :
    (l.filter p).filter p = l.filter p := by
  induction l with
  | nil => rfl
  | cons a t ih =>
    by_cases h : p a = true
    · simp [List.filter_cons, h, ih]
    · simp [List.filter_cons, h, ih]

/-- C1 (counterexample): in local mode two addQuestion calls during the same
millisecond return the same identifier, and the id returned by the second
call was already assigned to the record created by the first call. -/
theorem addQuestion_same_millisecond_id_collision :
    (addQuestion 1700000000000 "Bob" "q2"
        (addQuestion 1700000000000 "Alice" "q1" { stored := [], listeners := [] }).2.1).1
      = (addQuestion 1700000000000 "Alice" "q1" { stored := [], listeners := [] }).1
    ∧ (addQuestion 1700000000000 "Bob" "q2"
          (addQuestion 1700000000000 "Alice" "q1" { stored := [], listeners := [] }).2.1).1
        ∈ (getMockData (addQuestion 1700000000000 "Alice" "q1"
            { stored := [], listeners := [] }).2.1).map QAItem.id := by
  exact ⟨rfl, by decide⟩

/-- C1 (amended): in local mode, provided the current millisecond string is
not already the id of a stored record, addQuestion returns a fresh id, the
new stored list is the new record (that id, nickname, question text,
isReplied = false) prepended to the old list, and every registered listener
is delivered exactly that list. -/
theorem addQuestion_fresh_and_delivered (nowMs : Nat) (nickname question : String)
    (s : MockState)
    (hfresh : ((getMockData s).all fun i => i.id != toString nowMs) = true) :
    (addQuestion nowMs nickname question s).1 ∉ (getMockData s).map QAItem.id
    ∧ getMockData (addQuestion nowMs nickname question s).2.1
        = { id := toString nowMs, nickname := nickname, question := question,
            reply := "", isReplied := false, timestamp := nowMs / 1000 } :: getMockData s
    ∧ (addQuestion nowMs nickname question s).2.2
        = s.listeners.map fun t =>
            (t, getMockData (addQuestion nowMs nickname question s).2.1) := by
  refine ⟨?_, rfl, rfl⟩
  intro hmem
  obtain ⟨i, hi, hid⟩ := List.mem_map.mp hmem
  have h2 := List.all_eq_true.mp hfresh i hi
  simp only [bne_iff_ne, ne_eq] at h2
  exact h2 hid

/-- Witness for addQuestion_fresh_and_delivered at a concrete input. -/
theorem addQuestion_fresh_and_delivered_inst :
    ((getMockData { stored := [], listeners := [0] }).all fun i => i.id != toString 1000) = true
    ∧ ((addQuestion 1000 "Alice" "hi" { stored := [], listeners := [0] }).1
          ∉ (getMockData { stored := [], listeners := [0] }).map QAItem.id
      ∧ getMockData (addQuestion 1000 "Alice" "hi" { stored := [], listeners := [0] }).2.1
          = { id := toString 1000, nickname := "Alice", question := "hi",
              reply := "", isReplied := false, timestamp := 1000 / 1000 }
            :: getMockData { stored := [], listeners := [0] }
      ∧ (addQuestion 1000 "Alice" "hi" { stored := [], listeners := [0] }).2.2
          = ({ stored := [], listeners := [0] } : MockState).listeners.map fun t =>
              (t, getMockData (addQuestion 1000 "Alice" "hi"
                    { stored := [], listeners := [0] }).2.1)) :=
  ⟨by decide,
   addQuestion_fresh_and_delivered 1000 "Alice" "hi"
     { stored := [], listeners := [0] } (by decide)⟩

/-- C3 (counterexample): in local mode the delivery made at subscription time
is the stored list as-is; when the stored list is not ordered newest-first,
neither is the delivered list. -/
theorem subscribeToQA_unsorted_delivery :
    (subscribeToQA 0 ⟨[⟨"1", "a", "q1", "", 1, false⟩, ⟨"2", "b", "q2", "", 2, false⟩], []⟩).1
      = [⟨"1", "a", "q1", "", 1, false⟩, ⟨"2", "b", "q2", "", 2, false⟩]
    ∧ sortedByTimestampDesc
        (subscribeToQA 0
          ⟨[⟨"1", "a", "q1", "", 1, false⟩, ⟨"2", "b", "q2", "", 2, false⟩], []⟩).1
      = false := by
  exact ⟨rfl, by decide⟩

/-- C3 (amended): in local mode subscribeToQA synchronously delivers exactly
the current stored list and registers the callback, and every subsequent
add, reply or delete delivers the full updated stored list to every
registered listener (one delivery per listener, always the whole new list). -/
theorem subscribeToQA_delivers_current_and_every_change
    (tok : Nat) (s : MockState) (op : QAOp) :
    (subscribeToQA tok s).1 = getMockData s
    ∧ (subscribeToQA tok s).2.listeners = s.listeners ++ [tok]
    ∧ (applyOp op s).1.listeners = s.listeners
    ∧ (applyOp op s).2 = s.listeners.map fun t => (t, getMockData (applyOp op s).1) := by
  refine ⟨rfl, rfl, ?_, ?_⟩ <;> cases op <;> rfl

/-- C6 (counterexample): in local mode, after subscribing listener 7 and
invoking the returned unsubscribe function, a subsequent addQuestion still
delivers the updated list to listener 7. -/
theorem unsubscribed_listener_still_notified :
    (7, getMockData (applyOp (.add 1000 "a" "q")
        (unsubscribeToQA 7 (subscribeToQA 7 { stored := [], listeners := [] }).2)).1)
      ∈ (applyOp (.add 1000 "a" "q")
          (unsubscribeToQA 7 (subscribeToQA 7 { stored := [], listeners := [] }).2)).2 := by
  decide

/-- C6 (amended): the unsubscribe function returned by the local-mode
subscribeToQA is a no-op on the backend state, so after subscribe followed
by unsubscribe every later add, reply or delete still delivers to the
subscribed listener (its token is still in the notified set). -/
theorem unsubscribeToQA_is_noop (tok : Nat) (s : MockState) (op : QAOp) :
    unsubscribeToQA tok s = s
    ∧ (applyOp op (unsubscribeToQA tok (subscribeToQA tok s).2)).2
        = (s.listeners ++ [tok]).map fun t =>
            (t, getMockData (applyOp op
                  (unsubscribeToQA tok (subscribeToQA tok s).2)).1) := by
  refine ⟨rfl, ?_⟩
  cases op <;> rfl

/-- replyUpdater never changes the id field. -/
theorem replyUpdater_id_eq (id t : String) (i : QAItem) :
    (replyUpdater id t i).id = i.id := by
  by_cases h : i.id = id <;> simp [replyUpdater, h]

/-- Applying replyUpdater twice for the same id keeps only the second text. -/
theorem replyUpdater_absorb (id t t' : String) (i : QAItem) :
    replyUpdater id t' (replyUpdater id t i) = replyUpdater id t' i := by
  by_cases h : i.id = id <;> simp [replyUpdater, h]

/-- Mapping replyUpdater over a list with no matching id is the identity. -/
theorem map_replyUpdater_eq_self (id t : String) (l : List QAItem)
    (h : (l.all fun i => i.id != id) = true) :
    l.map (replyUpdater id t) = l := by
  induction l with
  | nil => rfl
  | cons a tl ih =>
    simp only [List.all_cons, Bool.and_eq_true] at h
    have ha : a.id ≠ id := by simpa using h.1
    simp only [List.map_cons, replyUpdater, if_neg ha, ih h.2]

/-- Zipping a list with its image under f relates every position to its
f-image. -/
theorem zip_map_all (f : QAItem → QAItem) (l : List QAItem) :
    ((l.zip (l.map f)).all fun p => p.2 == f p.1) = true := by
  induction l with
  | nil => rfl
  | cons a tl ih => simp [List.zip_cons_cons, ih]

/-- C4: local-mode deleteQuestion removes every record with the given id from
the stored list and from the deliveries it triggers; the records delivered
after a later reply or delete still contain no record with that id; and
deleting the same id a second time never errors and leaves the whole backend
state exactly as after the first delete. -/
theorem deleteQuestion_removes_and_idempotent (id : String) (s : MockState) :
    ((getMockData (deleteQuestion id s).1).all fun i => i.id != id) = true
    ∧ (((deleteQuestion id s).2).all fun p => p.2.all fun i => i.id != id) = true
    ∧ (∀ rid rt, ((getMockData (replyToQuestion rid rt (deleteQuestion id s).1).1).all
          fun i => i.id != id) = true)
    ∧ (∀ did, ((getMockData (deleteQuestion did (deleteQuestion id s).1).1).all
          fun i => i.id != id) = true)
    ∧ (deleteQuestion id (deleteQuestion id s).1).1 = (deleteQuestion id s).1 := by
  refine ⟨all_filter_self _ _, ?_, ?_, ?_, ?_⟩
  · rw [List.all_eq_true]
    intro p hp
    obtain ⟨tk, htk, rfl⟩ := List.mem_map.mp hp
    exact all_filter_self _ _
  · intro rid rt
    rw [List.all_eq_true]
    intro x hx
    obtain ⟨i, hi, rfl⟩ := List.mem_map.mp hx
    show ((replyUpdater rid rt i).id != id) = true
    rw [replyUpdater_id_eq]
    exact List.all_eq_true.mp (all_filter_self _ _) i hi
  · intro did
    rw [List.all_eq_true]
    intro x hx
    exact List.all_eq_true.mp (all_filter_self _ _) x (List.mem_filter.mp hx).1
  · show (⟨((getMockData s).filter (fun i => i.id != id)).filter
        (fun i => i.id != id), s.listeners⟩ : MockState)
      = ⟨(getMockData s).filter (fun i => i.id != id), s.listeners⟩
    rw [filter_self_idem]

/-- C5: local-mode replyToQuestion sets reply to the given text and
isReplied to true on every record with the given id; a second reply
overwrites the text (last write wins, isReplied stays true); and replying
twice leaves the backend state exactly as a single reply with the second
text would. -/
theorem replyToQuestion_sets_and_last_write_wins (id t t' : String) (s : MockState) :
    ((getMockData (replyToQuestion id t s).1).all
        fun i => i.id != id || (i.reply == t && i.isReplied)) = true
    ∧ ((getMockData (replyToQuestion id t' (replyToQuestion id t s).1).1).all
        fun i => i.id != id || (i.reply == t' && i.isReplied)) = true
    ∧ (replyToQuestion id t' (replyToQuestion id t s).1).1 = (replyToQuestion id t' s).1 := by
  have habs : ∀ (l : List QAItem),
      (l.map (replyUpdater id t)).map (replyUpdater id t') = l.map (replyUpdater id t') := by
    intro l
    induction l with
    | nil => rfl
    | cons a tl ih => simp only [List.map_cons, ih, replyUpdater_absorb]
  refine ⟨?_, ?_, ?_⟩
  · rw [List.all_eq_true]
    intro x hx
    obtain ⟨i, hi, rfl⟩ := List.mem_map.mp hx
    by_cases h : i.id = id <;> simp [replyUpdater, h]
  · show (((getMockData s).map (replyUpdater id t)).map (replyUpdater id t')).all
        (fun i => i.id != id || (i.reply == t' && i.isReplied)) = true
    rw [habs, List.all_eq_true]
    intro x hx
    obtain ⟨i, hi, rfl⟩ := List.mem_map.mp hx
    by_cases h : i.id = id <;> simp [replyUpdater, h]
  · show (⟨((getMockData s).map (replyUpdater id t)).map (replyUpdater id t'),
        s.listeners⟩ : MockState)
      = ⟨(getMockData s).map (replyUpdater id t'), s.listeners⟩
    rw [habs]

/-- C10: local-mode replyToQuestion preserves the length and order of the
stored list; at every position the record is unchanged in all fields when
its id differs from the target, and changed only in its reply and isReplied
fields when its id matches; and when no stored record has the target id the
whole backend state is unchanged. -/
theorem replyToQuestion_frame (id t : String) (s : MockState) :
    (getMockData (replyToQuestion id t s).1).length = (getMockData s).length
    ∧ (((getMockData s).zip (getMockData (replyToQuestion id t s).1)).all
        fun p => p.2 == if p.1.id = id
            then { p.1 with reply := t, isReplied := true } else p.1) = true
    ∧ (((getMockData s).all fun i => i.id != id) = true
        → (replyToQuestion id t s).1 = s) := by
  obtain ⟨st, ls⟩ := s
  refine ⟨List.length_map _ _, zip_map_all (replyUpdater id t) st, ?_⟩
  intro hall
  show ({ stored := st.map (replyUpdater id t), listeners := ls } : MockState) = ⟨st, ls⟩
  rw [map_replyUpdater_eq_self id t st hall]

/-- Witness for replyToQuestion_frame at a concrete input, with the
no-matching-id hypothesis discharged. -/
theorem replyToQuestion_frame_inst :
    (getMockData (replyToQuestion "9" "r" ⟨[⟨"1", "a", "q", "", 1, false⟩], []⟩).1).length
      = (getMockData ⟨[⟨"1", "a", "q", "", 1, false⟩], []⟩).length
    ∧ (((getMockData (⟨[⟨"1", "a", "q", "", 1, false⟩], []⟩ : MockState)).zip
          (getMockData (replyToQuestion "9" "r" ⟨[⟨"1", "a", "q", "", 1, false⟩], []⟩).1)).all
        fun p => p.2 == if p.1.id = "9"
            then { p.1 with reply := "r", isReplied := true } else p.1) = true
    ∧ (replyToQuestion "9" "r" ⟨[⟨"1", "a", "q", "", 1, false⟩], []⟩).1
        = ⟨[⟨"1", "a", "q", "", 1, false⟩], []⟩ :=
  ⟨(replyToQuestion_frame "9" "r" ⟨[⟨"1", "a", "q", "", 1, false⟩], []⟩).1,
   (replyToQuestion_frame "9" "r" ⟨[⟨"1", "a", "q", "", 1, false⟩], []⟩).2.1,
   (replyToQuestion_frame "9" "r" ⟨[⟨"1", "a", "q", "", 1, false⟩], []⟩).2.2 (by decide)⟩

/-- C2: the Firebase-mode _addQuestion has no time bound: a write
acknowledged only after 20 seconds still resolves normally, and a write
whose acknowledgement never arrives leaves the promise pending forever,
which is not a rejection with any error, timeout or otherwise. -/
theorem addQuestionFirebase_has_no_timeout :
    (addQuestionFirebase "Alice" "why" none 1700000000 (.acked "doc1" 20000)).1
      = .resolved "doc1"
    ∧ (addQuestionFirebase "Alice" "why" none 1700000000 .neverSettles).1
      = .pendingForever
    ∧ ∀ e, (addQuestionFirebase "Alice" "why" none 1700000000 .neverSettles).1
        ≠ .rejected e := by
  refine ⟨rfl, rfl, ?_⟩
  intro e h
  exact PromiseResult.noConfusion h

/-- C7: the delete button is shown for a record exactly when the record id is
in the viewer's local my-records list or admin mode is active; submitting a
password sets isAdmin (and the persisted flag) exactly when the typed value
equals the configured admin password, and otherwise leaves isAdmin as it
was (in particular false stays false); the password defaults to "admin"
when the environment value is unset. -/
theorem delete_gate_and_admin_password_gate
    (myQuestionIds : List String) (admin : Bool) (q : QAItem)
    (env : Option String) (s : AdminState) :
    (deleteButtonShown myQuestionIds admin q = true
      ↔ (q.id ∈ myQuestionIds ∨ admin = true))
    ∧ (handlePwdSubmit (ADMIN_PASSWORD env) s).isAdmin
        = (if s.pwdValue = ADMIN_PASSWORD env then true else s.isAdmin)
    ∧ (handlePwdSubmit (ADMIN_PASSWORD env) s).storedAdminFlag
        = (if s.pwdValue = ADMIN_PASSWORD env then true else s.storedAdminFlag)
    ∧ ADMIN_PASSWORD none = "admin" := by
  refine ⟨?_, ?_, ?_, rfl⟩
  · simp [deleteButtonShown]
  · by_cases h : s.pwdValue = ADMIN_PASSWORD env <;> simp [handlePwdSubmit, h]
  · by_cases h : s.pwdValue = ADMIN_PASSWORD env <;> simp [handlePwdSubmit, h]

/-- C8: when addQuestion rejects, handleSubmit shows the failure alert and
leaves myQuestionIds and its localStorage mirror exactly as before; the new
id is appended to both exactly when addQuestion resolves (and the emptiness
guard passed). -/
theorem handleSubmit_failure_preserves_my_records
    (s : SubmitState) (msg newId : String) :
    (handleSubmit (.error msg) s).myQuestionIds = s.myQuestionIds
    ∧ (handleSubmit (.error msg) s).myIdsStorage = s.myIdsStorage
    ∧ (handleSubmit (.error msg) s).alertMsg
        = (if s.nickname.trim = "" ∨ s.newQuestion.trim = "" then s.alertMsg
           else some ("提交失败: " ++ msg))
    ∧ (handleSubmit (.ok newId) s).myQuestionIds
        = (if s.nickname.trim = "" ∨ s.newQuestion.trim = "" then s.myQuestionIds
           else s.myQuestionIds ++ [newId])
    ∧ (handleSubmit (.ok newId) s).myIdsStorage
        = (if s.nickname.trim = "" ∨ s.newQuestion.trim = "" then s.myIdsStorage
           else s.myQuestionIds ++ [newId]) := by
  by_cases h : s.nickname.trim = "" ∨ s.newQuestion.trim = "" <;>
    simp [handleSubmit, h]

/-- C9: on an error delivery the subscription callback of QABoard keeps the
displayed question list unchanged and records the error message; this holds
in particular for the adapter's Firestore error delivery, which passes an
empty list alongside the message; on a normal delivery the list is replaced
and the error cleared. -/
theorem subscription_error_preserves_questions
    (data : List QAItem) (e msg : String) (s : ConnState) :
    (subscriptionHandler data (some e) s).questions = s.questions
    ∧ (subscriptionHandler data (some e) s).connectionError = some e
    ∧ (subscriptionHandler (firestoreErrorDelivery msg).1
        (firestoreErrorDelivery msg).2 s).questions = s.questions
    ∧ (subscriptionHandler data none s).questions = data
    ∧ (subscriptionHandler data none s).connectionError = none := by
  exact ⟨rfl, rfl, rfl, rfl, rfl⟩
